import Mathlib

/-!
Shallow embedding of the collaborative drawing client
(`src/App.js`, plus the `getRelativeCoords` variant) and proofs of the
specified properties of its stroke model, reconciler, render engine,
coordinate normalizer and sync channel.

Conventions of the embedding:
* JS numbers are modelled as `ℚ` (the arithmetic the claims speak about is
  exact: products and quotients of coordinates and scale factors).
* A JS value that may be `undefined`/`null` is an `Option`; `x || y` on such
  a value is `Option.getD`.
* Canvas-context calls are recorded as a trace (`List CanvasOp`): the render
  claims are about which drawing commands are issued and in which order.
* A JS call that would throw (property access on `null`) is `Option.none`
  in the result type.
-/

namespace CollabDraw

/-- A point of a stroke as built by the client: `{ x, y, color }`
(each appended point carries the current color, as in
`{ x: pos.x, y: pos.y, color: currentColor }`). -/
structure Point where
  x : ℚ
  y : ℚ
  color : String
deriving DecidableEq

/-- A stroke is the ordered list of its points (`currentStroke`). -/
abbrev Stroke := List Point

/-- The committed stroke history (`strokesRef.current`). -/
abbrev History := List Stroke

/-- One recorded call on the 2D canvas context (plus the canvas-element
size assignments done by `resizeCanvas`). -/
inductive CanvasOp where
  | setBufferSize (w h : ℚ)
  | setCSSSize (w h : ℚ)
  | setTransform (a b c d e f : ℚ)
  | scale (sx sy : ℚ)
  | clearRect (x y w h : ℚ)
  | beginPath
  | setStrokeStyle (c : String)
  | setLineWidth (w : ℚ)
  | setLineCap (s : String)
  | moveTo (x y : ℚ)
  | lineTo (x y : ℚ)
  | strokePath
deriving DecidableEq

/-- `drawLine(ctx, stroke)`: with fewer than 2 points it returns before
touching the context; otherwise it strokes one path from `stroke[0]`
through every later point. -/
def drawLine (stroke : Stroke) : List CanvasOp :=
  match stroke with
  | p :: q :: rest =>
      CanvasOp.beginPath :: CanvasOp.setStrokeStyle p.color ::
      CanvasOp.setLineWidth 3 :: CanvasOp.setLineCap "round" ::
      CanvasOp.moveTo p.x p.y ::
      (((q :: rest).map fun r => CanvasOp.lineTo r.x r.y) ++ [CanvasOp.strokePath])
  | _ => []

/-- `redrawAll(ctx)`: clear the full buffer, then repaint every stroke of
the history in order. `canvasW`/`canvasH` are the backing-buffer pixel
dimensions (`ctx.canvas.width/height`). -/
def redrawAll (canvasW canvasH : ℚ) (strokes : History) : List CanvasOp :=
  CanvasOp.clearRect 0 0 canvasW canvasH :: (strokes.map drawLine).flatten

/-- `WebSocket.readyState` values relevant to the client. -/
inductive ReadyState where
  | CONNECTING
  | OPEN
  | CLOSED
deriving DecidableEq

/-- The wire messages of the protocol, exactly the `msg.type` cases the
client dispatches on. `init`'s `strokes` field and `endStroke`'s `stroke`
field may be absent (`Option`). -/
inductive Msg where
  | init (strokes : Option History)
  | start (x y : ℚ) (color : String)
  | draw (x y : ℚ) (color : String)
  | endStroke (stroke : Option Stroke)
  | undo
  | clear
deriving DecidableEq

/-- The mutable state of one client: committed history (`strokesRef`),
in-flight stroke (`currentStroke`), the `drawing` flag, the selected
color, and the socket (absent, or present with its ready state). -/
structure ClientState where
  strokes : History
  currentStroke : Stroke
  drawing : Bool
  currentColor : String
  socket : Option ReadyState
deriving DecidableEq

/-- `Array.prototype.pop` on the history: removes and returns the last
element; on an empty array it returns `undefined` and changes nothing. -/
def historyPop (h : History) : History × Option Stroke :=
  (h.dropLast, h.getLast?)

/-- `sendMessage(msg)`: transmits only when a socket exists and its
`readyState` is `OPEN`; otherwise the message is dropped on the floor. -/
def sendMessage (socket : Option ReadyState) (msg : Msg) : Option Msg :=
  match socket with
  | some ReadyState.OPEN => some msg
  | _ => none

/-- The `socketRef.current.onmessage` dispatch: one inbound message mutates
the client state and issues canvas commands. JS truthiness is preserved:
`msg.strokes || []` is `Option.getD`, and `if (msg.stroke)` is true for
*every* present array, the empty one included. -/
def onMessage (st : ClientState) (canvasW canvasH : ℚ) (msg : Msg) :
    ClientState × List CanvasOp :=
  match msg with
  | Msg.init strokes =>
      let newStrokes := strokes.getD []
      ({ st with strokes := newStrokes }, redrawAll canvasW canvasH newStrokes)
  | Msg.start x y color =>
      ({ st with currentStroke := [⟨x, y, color⟩] }, [])
  | Msg.draw x y color =>
      let newStroke := st.currentStroke ++ [⟨x, y, color⟩]
      ({ st with currentStroke := newStroke }, drawLine newStroke)
  | Msg.endStroke stroke =>
      match stroke with
      | some s =>
          ({ st with strokes := st.strokes ++ [s], currentStroke := [] },
           redrawAll canvasW canvasH (st.strokes ++ [s]))
      | none => ({ st with currentStroke := [] }, [])
  | Msg.undo =>
      let newStrokes := (historyPop st.strokes).1
      ({ st with strokes := newStrokes }, redrawAll canvasW canvasH newStrokes)
  | Msg.clear =>
      ({ st with strokes := [] }, [CanvasOp.clearRect 0 0 canvasW canvasH])

/-- Processing a sequence of inbound messages in receipt order. -/
def applyMsgs (canvasW canvasH : ℚ) (st : ClientState) (msgs : List Msg) :
    ClientState :=
  msgs.foldl (fun s m => (onMessage s canvasW canvasH m).1) st

/-- A pointer/touch event: the client coordinates, and the first touch
contact's client coordinates when `e.touches` is present. -/
structure Event where
  clientX : ℚ
  clientY : ℚ
  touches : Option (ℚ × ℚ)
deriving DecidableEq

/-- `canvas.getBoundingClientRect()`: the CSS-space rectangle the canvas
occupies on screen. -/
structure Rect where
  left : ℚ
  top : ℚ
  width : ℚ
  height : ℚ
deriving DecidableEq

/-- The canvas element's backing-buffer pixel dimensions
(`canvas.width`, `canvas.height`). -/
structure CanvasDims where
  width : ℚ
  height : ℚ
deriving DecidableEq

/-- `getPos(e)` on a mounted canvas: pick the client coordinates (first
touch if touching), subtract the rect origin, then scale by the ratio of
backing-buffer size to CSS size. -/
def getPos (canvas : CanvasDims) (rect : Rect) (e : Event) : ℚ × ℚ :=
  let client : ℚ × ℚ :=
    match e.touches with
    | some t => t
    | none => (e.clientX, e.clientY)
  ((client.1 - rect.left) * (canvas.width / rect.width),
   (client.2 - rect.top) * (canvas.height / rect.height))

/-- `getPos(e)` including the unmounted case: `getPos` dereferences
`canvasRef.current` unconditionally (`canvas.getBoundingClientRect()`), so
when the canvas is not mounted the call throws a `TypeError`, modelled as
`none`. -/
def getPosTotal (canvas : Option (CanvasDims × Rect)) (e : Event) :
    Option (ℚ × ℚ) :=
  match canvas with
  | none => none
  | some c => some (getPos c.1 c.2 e)

/-- `getRelativeCoords(event)` of the variant client: returns the sentinel
origin `{x: 0, y: 0}` when the canvas is not mounted; otherwise offsets by
the rect origin and multiplies by the device pixel ratio. -/
def getRelativeCoords (canvas : Option Rect) (dpr : ℚ) (e : Event) : ℚ × ℚ :=
  match canvas with
  | none => (0, 0)
  | some rect =>
      let client : ℚ × ℚ :=
        match e.touches with
        | some t => t
        | none => (e.clientX, e.clientY)
      ((client.1 - rect.left) * dpr, (client.2 - rect.top) * dpr)

/-- `handlePointerDown(e)`: normalize the event position, set
`drawing = true`, replace `currentStroke` with a fresh one-point stroke,
begin a path on the context, and send a `start` message (when open).
Returns the new state, the context calls, and the outbound message. -/
def handlePointerDown (st : ClientState) (canvas : CanvasDims) (rect : Rect)
    (e : Event) : ClientState × List CanvasOp × Option Msg :=
  let pos := getPos canvas rect e
  let stroke : Stroke := [⟨pos.1, pos.2, st.currentColor⟩]
  ({ st with drawing := true, currentStroke := stroke },
   [CanvasOp.beginPath, CanvasOp.moveTo pos.1 pos.2,
    CanvasOp.setStrokeStyle st.currentColor],
   sendMessage st.socket (Msg.start pos.1 pos.2 st.currentColor))

/-- `handlePointerMove(e)`: a no-op unless `drawing`; otherwise append the
normalized position to `currentStroke`, extend the path, and send a `draw`
message (when open). -/
def handlePointerMove (st : ClientState) (canvas : CanvasDims) (rect : Rect)
    (e : Event) : ClientState × List CanvasOp × Option Msg :=
  if st.drawing then
    let pos := getPos canvas rect e
    let newStroke := st.currentStroke ++ [⟨pos.1, pos.2, st.currentColor⟩]
    ({ st with currentStroke := newStroke },
     [CanvasOp.lineTo pos.1 pos.2, CanvasOp.strokePath],
     sendMessage st.socket (Msg.draw pos.1 pos.2 st.currentColor))
  else (st, [], none)

/-- `endDrawing(e)`: a no-op unless `drawing`; otherwise commit
`currentStroke` to the history, send it whole in an `endStroke` message
(when open), and clear the in-flight state. -/
def endDrawing (st : ClientState) : ClientState × Option Msg :=
  if st.drawing then
    ({ st with drawing := false, strokes := st.strokes ++ [st.currentStroke],
               currentStroke := [] },
     sendMessage st.socket (Msg.endStroke (some st.currentStroke)))
  else (st, none)

/-- `handleUndo()`: pop the last stroke from the history, redraw, and send
an `undo` message (when open). -/
def handleUndo (st : ClientState) (canvasW canvasH : ℚ) :
    ClientState × List CanvasOp × Option Msg :=
  let newStrokes := (historyPop st.strokes).1
  ({ st with strokes := newStrokes },
   redrawAll canvasW canvasH newStrokes,
   sendMessage st.socket Msg.undo)

/-- `handleClear()`: empty the history, clear the buffer, and send a
`clear` message (when open). -/
def handleClear (st : ClientState) (canvasW canvasH : ℚ) :
    ClientState × List CanvasOp × Option Msg :=
  ({ st with strokes := [] },
   [CanvasOp.clearRect 0 0 canvasW canvasH],
   sendMessage st.socket Msg.clear)

/-- `ASPECT_RATIO`: width / height of the canvas, fixed at 4 : 3. -/
def aspectRatio : ℚ := 4 / 3

/-- The canvas element's geometry after a resize: backing-buffer pixel
size and CSS size. -/
structure CanvasState where
  width : ℚ
  height : ℚ
  cssWidth : ℚ
  cssHeight : ℚ
deriving DecidableEq

/-- `resizeCanvas()`: returns early when the canvas is unmounted;
otherwise recomputes buffer dimensions from the container width (window
width as fallback) under the fixed aspect ratio, sets the CSS size, resets
the transform, applies the device-pixel-ratio scale
(`window.devicePixelRatio || 1`, absent modelled as `none`), and issues a
full redraw of every stroke. The history is read, never written; it is
returned alongside to make that explicit. -/
def resizeCanvas (canvasMounted : Bool) (containerWidth : Option ℚ)
    (windowInnerWidth : ℚ) (devicePixelRatio : Option ℚ) (strokes : History) :
    Option CanvasState × History × List CanvasOp :=
  if canvasMounted then
    let newWidth := containerWidth.getD windowInnerWidth
    let newHeight := newWidth / aspectRatio
    let dpr := devicePixelRatio.getD 1
    let c : CanvasState := ⟨newWidth * dpr, newHeight * dpr, newWidth, newHeight⟩
    (some c,
     strokes,
     [CanvasOp.setBufferSize c.width c.height,
      CanvasOp.setCSSSize newWidth newHeight,
      CanvasOp.setTransform 1 0 0 1 0 0,
      CanvasOp.scale dpr dpr]
     ++ redrawAll c.width c.height strokes)
  else (none, strokes, [])

/-! ## Theorems -/

/-- C2: for every local history and every received `init` message carrying
a history snapshot, the handler replaces the local history wholesale with
the snapshot — an overwrite, not a merge — regardless of what the client
held before. -/
theorem init_replaces_history (st : ClientState) (canvasW canvasH : ℚ)
    (snap : History) :
    (onMessage st canvasW canvasH (Msg.init (some snap))).1.strokes = snap := by
  simp [onMessage]

/-- C6: `sendMessage` transmits the message exactly when a socket exists in
the `OPEN` state; with no socket, or a socket still `CONNECTING` or already
`CLOSED`, the message is silently dropped — no queue, no retry, no error. -/
theorem send_gated_on_open (msg : Msg) :
    sendMessage (some ReadyState.OPEN) msg = some msg ∧
    sendMessage (some ReadyState.CONNECTING) msg = none ∧
    sendMessage (some ReadyState.CLOSED) msg = none ∧
    sendMessage none msg = none := by
  exact ⟨rfl, rfl, rfl, rfl⟩

/-- C3: `undo` on an empty history is a no-op, not an error: the pop
returns nothing and leaves the history empty, both for the local
`handleUndo` and for a remote `undo` message; and after `clear` empties any
history, a further `undo` leaves it empty (no underflow). -/
theorem undo_on_empty_noop (st stRemote stAny : ClientState) (canvasW canvasH : ℚ)
    (h : st.strokes = []) (hRemote : stRemote.strokes = []) :
    (handleUndo st canvasW canvasH).1.strokes = [] ∧
    (historyPop st.strokes).2 = none ∧
    (onMessage stRemote canvasW canvasH Msg.undo).1.strokes = [] ∧
    (handleUndo (handleClear stAny canvasW canvasH).1 canvasW canvasH).1.strokes
      = [] := by
  refine ⟨?_, ?_, ?_, ?_⟩
  · simp [handleUndo, historyPop, h]
  · simp [historyPop, h]
  · simp [onMessage, historyPop, hRemote]
  · simp [handleUndo, handleClear, historyPop]

/-- C3 witness: the no-op at concrete empty states (and after clearing a
two-stroke history). -/
theorem undo_on_empty_noop_witness :
    (handleUndo ⟨[], [], false, "#000000", none⟩ 800 600).1.strokes = [] ∧
    (historyPop (ClientState.strokes ⟨[], [], false, "#000000", none⟩)).2 = none ∧
    (onMessage ⟨[], [], false, "#000000", none⟩ 800 600 Msg.undo).1.strokes = [] ∧
    (handleUndo
      (handleClear ⟨[[⟨1, 1, "#000000"⟩, ⟨2, 2, "#000000"⟩], [⟨3, 3, "#ffffff"⟩]],
        [], false, "#000000", none⟩ 800 600).1 800 600).1.strokes = [] :=
  undo_on_empty_noop ⟨[], [], false, "#000000", none⟩
    ⟨[], [], false, "#000000", none⟩
    ⟨[[⟨1, 1, "#000000"⟩, ⟨2, 2, "#000000"⟩], [⟨3, 3, "#ffffff"⟩]],
      [], false, "#000000", none⟩ 800 600 rfl rfl

/-- C8 counterexample: the claim says the coordinate normalizer returns the
sentinel origin on an unmounted canvas for every event, but `getPos` in
`App.js` dereferences the canvas unconditionally and fails (models as
`none`), not the sentinel `(0, 0)`. -/
theorem unmounted_getpos_fails :
    getPosTotal none ⟨5, 7, none⟩ = none ∧
    getPosTotal none ⟨5, 7, none⟩ ≠ some (0, 0) := by
  exact ⟨rfl, by simp [getPosTotal]⟩

/-- C8 amended: the `getRelativeCoords` variant returns the sentinel origin
`(0, 0)` for every input event when the canvas is not mounted; `App.js`'s
`getPos` instead assumes a mounted canvas and fails on an unmounted one. -/
theorem unmounted_normalizer_behavior (e : Event) (dpr : ℚ) :
    getRelativeCoords none dpr e = (0, 0) ∧ getPosTotal none e = none := by
  exact ⟨rfl, rfl⟩

/-- C10 counterexample: an `endStroke` message carrying an *empty* stroke
array does not leave the history unchanged: the empty array is truthy in
JS, so the empty stroke is appended. -/
theorem empty_end_stroke_appends :
    (onMessage ⟨[], [⟨1, 1, "#000000"⟩], false, "#000000", none⟩ 800 600
      (Msg.endStroke (some []))).1.strokes = [([] : Stroke)] ∧
    (onMessage ⟨[], [⟨1, 1, "#000000"⟩], false, "#000000", none⟩ 800 600
      (Msg.endStroke (some []))).1.strokes ≠ [] := by
  refine ⟨rfl, ?_⟩
  simp [onMessage]

/-- C10 amended: an `endStroke` whose `stroke` field is *missing* leaves
the history unchanged, but one carrying an empty stroke array appends that
empty stroke (the empty array is truthy); in both cases the in-flight
remote stroke is cleared, so a subsequent `draw` message starts a fresh
one-point stroke instead of extending the old one. -/
theorem end_stroke_missing_vs_empty (st : ClientState) (canvasW canvasH : ℚ)
    (s : Stroke) (x y : ℚ) (c : String) :
    (onMessage st canvasW canvasH (Msg.endStroke none)).1.strokes = st.strokes ∧
    (onMessage st canvasW canvasH (Msg.endStroke none)).1.currentStroke = [] ∧
    (onMessage st canvasW canvasH (Msg.endStroke (some s))).1.strokes
      = st.strokes ++ [s] ∧
    (onMessage st canvasW canvasH (Msg.endStroke (some s))).1.currentStroke = [] ∧
    (onMessage (onMessage st canvasW canvasH (Msg.endStroke none)).1
      canvasW canvasH (Msg.draw x y c)).1.currentStroke = [⟨x, y, c⟩] := by
  refine ⟨rfl, rfl, rfl, rfl, ?_⟩
  simp [onMessage]

/-- C7 counterexample: with an in-flight stroke already open
(`drawing = true`, `currentStroke` nonempty), a second pointer-down does
not fail: it silently succeeds, replacing the open stroke with a fresh
one-point stroke. -/
theorem second_begin_stroke_silently_succeeds :
    (handlePointerDown ⟨[], [⟨1, 1, "#000000"⟩], true, "#000000",
        some ReadyState.OPEN⟩ ⟨800, 600⟩ ⟨0, 0, 800, 600⟩ ⟨10, 10, none⟩).1
      ≠ ⟨[], [⟨1, 1, "#000000"⟩], true, "#000000", some ReadyState.OPEN⟩ ∧
    (handlePointerDown ⟨[], [⟨1, 1, "#000000"⟩], true, "#000000",
        some ReadyState.OPEN⟩ ⟨800, 600⟩ ⟨0, 0, 800, 600⟩ ⟨10, 10, none⟩).1.currentStroke
      = [⟨10, 10, "#000000"⟩] := by
  refine ⟨?_, ?_⟩ <;>
    norm_num [handlePointerDown, getPos, sendMessage, ClientState.mk.injEq,
      Point.mk.injEq]

/-- C7 amended: `handlePointerDown` performs no already-open check; it
unconditionally opens a fresh one-point in-flight stroke (silently
discarding, not committing, any stroke that was open), sets `drawing`, and
leaves the history untouched — so at most one in-flight stroke ever exists
per client, held in the single `currentStroke` slot. -/
theorem begin_stroke_replaces_in_flight (st : ClientState)
    (canvas : CanvasDims) (rect : Rect) (e : Event) :
    (handlePointerDown st canvas rect e).1.currentStroke
      = [⟨(getPos canvas rect e).1, (getPos canvas rect e).2, st.currentColor⟩] ∧
    (handlePointerDown st canvas rect e).1.drawing = true ∧
    (handlePointerDown st canvas rect e).1.strokes = st.strokes := by
  refine ⟨rfl, rfl, rfl⟩

/-- C9: a stroke with fewer than two points draws nothing — `drawLine`
emits no context call at all, and a full redraw of a history extended by
such a stroke issues exactly the calls of the redraw without it — yet the
stroke is still committed: an `endStroke` message carrying it appends it
to the history, whose length grows by one. -/
theorem short_stroke_invisible_but_kept (stroke : Stroke)
    (h : stroke.length < 2) (st : ClientState) (canvasW canvasH : ℚ) :
    drawLine stroke = [] ∧
    (onMessage st canvasW canvasH (Msg.endStroke (some stroke))).1.strokes
      = st.strokes ++ [stroke] ∧
    (onMessage st canvasW canvasH (Msg.endStroke (some stroke))).1.strokes.length
      = st.strokes.length + 1 ∧
    redrawAll canvasW canvasH (st.strokes ++ [stroke])
      = redrawAll canvasW canvasH st.strokes := by
  have hdraw : drawLine stroke = [] := by
    cases stroke with
    | nil => rfl
    | cons p t =>
      cases t with
      | nil => rfl
      | cons q rest =>
        exfalso
        simp only [List.length_cons] at h
        omega
  refine ⟨hdraw, ?_, ?_, ?_⟩
  · simp [onMessage]
  · simp [onMessage]
  · simp [redrawAll, hdraw]

/-- C9 witness: a one-point stroke at a concrete state. -/
theorem short_stroke_invisible_but_kept_witness :
    drawLine [⟨3, 4, "#ff0000"⟩] = [] ∧
    (onMessage ⟨[[⟨1, 1, "#000000"⟩, ⟨2, 2, "#000000"⟩]], [], false, "#000000",
        none⟩ 800 600 (Msg.endStroke (some [⟨3, 4, "#ff0000"⟩]))).1.strokes
      = [[⟨1, 1, "#000000"⟩, ⟨2, 2, "#000000"⟩]] ++ [[⟨3, 4, "#ff0000"⟩]] ∧
    (onMessage ⟨[[⟨1, 1, "#000000"⟩, ⟨2, 2, "#000000"⟩]], [], false, "#000000",
        none⟩ 800 600 (Msg.endStroke (some [⟨3, 4, "#ff0000"⟩]))).1.strokes.length
      = ([[⟨1, 1, "#000000"⟩, ⟨2, 2, "#000000"⟩]] : History).length + 1 ∧
    redrawAll 800 600 ([[⟨1, 1, "#000000"⟩, ⟨2, 2, "#000000"⟩]] ++ [[⟨3, 4, "#ff0000"⟩]])
      = redrawAll 800 600 [[⟨1, 1, "#000000"⟩, ⟨2, 2, "#000000"⟩]] :=
  short_stroke_invisible_but_kept [⟨3, 4, "#ff0000"⟩] (by decide)
    ⟨[[⟨1, 1, "#000000"⟩, ⟨2, 2, "#000000"⟩]], [], false, "#000000", none⟩ 800 600

/-- C5: a resize never touches the history (mounted or not), and on a
mounted canvas it performs, in this order: set the recomputed buffer
dimensions (height derived from the width under the fixed 4:3 aspect
ratio), set the CSS size, reset the transform, apply the
device-pixel-ratio scale, and only then the full redraw — a clear of the
buffer followed by the paint of every history stroke in order, none
dropped or duplicated. -/
theorem resize_preserves_history_and_order (mounted : Bool)
    (containerWidth : Option ℚ) (windowInnerWidth : ℚ) (dpr0 : Option ℚ)
    (strokes : History) :
    (resizeCanvas mounted containerWidth windowInnerWidth dpr0 strokes).2.1
      = strokes ∧
    (resizeCanvas true containerWidth windowInnerWidth dpr0 strokes).2.2
      = [CanvasOp.setBufferSize ((containerWidth.getD windowInnerWidth) * dpr0.getD 1)
           (((containerWidth.getD windowInnerWidth) / aspectRatio) * dpr0.getD 1),
         CanvasOp.setCSSSize (containerWidth.getD windowInnerWidth)
           ((containerWidth.getD windowInnerWidth) / aspectRatio),
         CanvasOp.setTransform 1 0 0 1 0 0,
         CanvasOp.scale (dpr0.getD 1) (dpr0.getD 1),
         CanvasOp.clearRect 0 0 ((containerWidth.getD windowInnerWidth) * dpr0.getD 1)
           (((containerWidth.getD windowInnerWidth) / aspectRatio) * dpr0.getD 1)]
        ++ (strokes.map drawLine).flatten ∧
    (resizeCanvas true containerWidth windowInnerWidth dpr0 strokes).1
      = some ⟨(containerWidth.getD windowInnerWidth) * dpr0.getD 1,
              ((containerWidth.getD windowInnerWidth) / aspectRatio) * dpr0.getD 1,
              containerWidth.getD windowInnerWidth,
              (containerWidth.getD windowInnerWidth) / aspectRatio⟩ := by
  refine ⟨?_, ?_, ?_⟩
  · cases mounted <;> simp [resizeCanvas]
  · simp [resizeCanvas, redrawAll]
  · simp [resizeCanvas]

/-- C4: a pointer (or first-touch) event at CSS position `(px, py)`
relative to the canvas — client coordinates `(rect.left + px,
rect.top + py)` — normalizes to `(px * W / w, py * H / h)` for buffer size
`W × H` and CSS size `w × h`; the variant normalizer, which multiplies by
the device pixel ratio, produces the same point whenever the buffer is the
CSS size scaled by that ratio. -/
theorem coordinate_normalization (canvas : CanvasDims) (rect : Rect)
    (px py dpr : ℚ) (hW : canvas.width = rect.width * dpr)
    (hH : canvas.height = rect.height * dpr) (hw : rect.width ≠ 0)
    (hh : rect.height ≠ 0) :
    getPos canvas rect ⟨rect.left + px, rect.top + py, none⟩
      = (px * canvas.width / rect.width, py * canvas.height / rect.height) ∧
    getPos canvas rect ⟨0, 0, some (rect.left + px, rect.top + py)⟩
      = (px * canvas.width / rect.width, py * canvas.height / rect.height) ∧
    getRelativeCoords (some rect) dpr ⟨rect.left + px, rect.top + py, none⟩
      = (px * canvas.width / rect.width, py * canvas.height / rect.height) := by
  have hx : (rect.left + px - rect.left) * (canvas.width / rect.width)
      = px * canvas.width / rect.width := by
    rw [add_sub_cancel_left, mul_div_assoc]
  have hy : (rect.top + py - rect.top) * (canvas.height / rect.height)
      = py * canvas.height / rect.height := by
    rw [add_sub_cancel_left, mul_div_assoc]
  refine ⟨?_, ?_, ?_⟩
  · simp only [getPos, Prod.mk.injEq]
    exact ⟨hx, hy⟩
  · simp only [getPos, Prod.mk.injEq]
    exact ⟨hx, hy⟩
  · simp only [getRelativeCoords, Prod.mk.injEq, add_sub_cancel_left]
    constructor
    · rw [hW]
      field_simp
      ring
    · rw [hH]
      field_simp
      ring

/-- C4 witness: buffer 1600×1200, CSS 800×600 (device pixel ratio 2), CSS
position (10, 20) on a rect at (3, 4). -/
theorem coordinate_normalization_witness :
    getPos ⟨1600, 1200⟩ ⟨3, 4, 800, 600⟩ ⟨3 + 10, 4 + 20, none⟩
      = (10 * (1600 : ℚ) / 800, 20 * (1200 : ℚ) / 600) ∧
    getPos ⟨1600, 1200⟩ ⟨3, 4, 800, 600⟩ ⟨0, 0, some (3 + 10, 4 + 20)⟩
      = (10 * (1600 : ℚ) / 800, 20 * (1200 : ℚ) / 600) ∧
    getRelativeCoords (some ⟨3, 4, 800, 600⟩) 2 ⟨3 + 10, 4 + 20, none⟩
      = (10 * (1600 : ℚ) / 800, 20 * (1200 : ℚ) / 600) :=
  coordinate_normalization ⟨1600, 1200⟩ ⟨3, 4, 800, 600⟩ 10 20 2
    (by norm_num) (by norm_num) (by norm_num) (by norm_num)

/-- C1: from the empty initial state, drawing pointer-down at (10,10) and
pointer-move at (20,20) with color `#ff0000` and releasing commits exactly
one stroke `[(10,10), (20,20)]` of that color and emits the three messages
`start`, `draw`, `endStroke`; and every second client whose history is
empty ends, after receiving those three messages in order, with a history
identical to the sender's. -/
theorem two_point_stroke_scenario (recv : ClientState)
    (hrecv : recv.strokes = []) :
    (endDrawing (handlePointerMove (handlePointerDown
        ⟨[], [], false, "#ff0000", some ReadyState.OPEN⟩
        ⟨800, 600⟩ ⟨0, 0, 800, 600⟩ ⟨10, 10, none⟩).1
        ⟨800, 600⟩ ⟨0, 0, 800, 600⟩ ⟨20, 20, none⟩).1).1.strokes
      = [[⟨10, 10, "#ff0000"⟩, ⟨20, 20, "#ff0000"⟩]] ∧
    (handlePointerDown ⟨[], [], false, "#ff0000", some ReadyState.OPEN⟩
        ⟨800, 600⟩ ⟨0, 0, 800, 600⟩ ⟨10, 10, none⟩).2.2
      = some (Msg.start 10 10 "#ff0000") ∧
    (handlePointerMove (handlePointerDown
        ⟨[], [], false, "#ff0000", some ReadyState.OPEN⟩
        ⟨800, 600⟩ ⟨0, 0, 800, 600⟩ ⟨10, 10, none⟩).1
        ⟨800, 600⟩ ⟨0, 0, 800, 600⟩ ⟨20, 20, none⟩).2.2
      = some (Msg.draw 20 20 "#ff0000") ∧
    (endDrawing (handlePointerMove (handlePointerDown
        ⟨[], [], false, "#ff0000", some ReadyState.OPEN⟩
        ⟨800, 600⟩ ⟨0, 0, 800, 600⟩ ⟨10, 10, none⟩).1
        ⟨800, 600⟩ ⟨0, 0, 800, 600⟩ ⟨20, 20, none⟩).1).2
      = some (Msg.endStroke (some [⟨10, 10, "#ff0000"⟩, ⟨20, 20, "#ff0000"⟩])) ∧
    (applyMsgs 800 600 recv
        [Msg.start 10 10 "#ff0000", Msg.draw 20 20 "#ff0000",
         Msg.endStroke (some [⟨10, 10, "#ff0000"⟩, ⟨20, 20, "#ff0000"⟩])]).strokes
      = [[⟨10, 10, "#ff0000"⟩, ⟨20, 20, "#ff0000"⟩]] := by
  refine ⟨?_, ?_, ?_, ?_, ?_⟩
  · norm_num [handlePointerDown, handlePointerMove, endDrawing, getPos,
      sendMessage]
  · norm_num [handlePointerDown, getPos, sendMessage]
  · norm_num [handlePointerDown, handlePointerMove, getPos, sendMessage]
  · norm_num [handlePointerDown, handlePointerMove, endDrawing, getPos,
      sendMessage]
  · simp [applyMsgs, onMessage, hrecv]

/-- C1 witness: a second client starting from the empty initial state. -/
theorem two_point_stroke_scenario_witness :
    (endDrawing (handlePointerMove (handlePointerDown
        ⟨[], [], false, "#ff0000", some ReadyState.OPEN⟩
        ⟨800, 600⟩ ⟨0, 0, 800, 600⟩ ⟨10, 10, none⟩).1
        ⟨800, 600⟩ ⟨0, 0, 800, 600⟩ ⟨20, 20, none⟩).1).1.strokes
      = [[⟨10, 10, "#ff0000"⟩, ⟨20, 20, "#ff0000"⟩]] ∧
    (handlePointerDown ⟨[], [], false, "#ff0000", some ReadyState.OPEN⟩
        ⟨800, 600⟩ ⟨0, 0, 800, 600⟩ ⟨10, 10, none⟩).2.2
      = some (Msg.start 10 10 "#ff0000") ∧
    (handlePointerMove (handlePointerDown
        ⟨[], [], false, "#ff0000", some ReadyState.OPEN⟩
        ⟨800, 600⟩ ⟨0, 0, 800, 600⟩ ⟨10, 10, none⟩).1
        ⟨800, 600⟩ ⟨0, 0, 800, 600⟩ ⟨20, 20, none⟩).2.2
      = some (Msg.draw 20 20 "#ff0000") ∧
    (endDrawing (handlePointerMove (handlePointerDown
        ⟨[], [], false, "#ff0000", some ReadyState.OPEN⟩
        ⟨800, 600⟩ ⟨0, 0, 800, 600⟩ ⟨10, 10, none⟩).1
        ⟨800, 600⟩ ⟨0, 0, 800, 600⟩ ⟨20, 20, none⟩).1).2
      = some (Msg.endStroke (some [⟨10, 10, "#ff0000"⟩, ⟨20, 20, "#ff0000"⟩])) ∧
    (applyMsgs 800 600 ⟨[], [], false, "#000000", none⟩
        [Msg.start 10 10 "#ff0000", Msg.draw 20 20 "#ff0000",
         Msg.endStroke (some [⟨10, 10, "#ff0000"⟩, ⟨20, 20, "#ff0000"⟩])]).strokes
      = [[⟨10, 10, "#ff0000"⟩, ⟨20, 20, "#ff0000"⟩]] :=
  two_point_stroke_scenario ⟨[], [], false, "#000000", none⟩ rfl

end CollabDraw
